import Mathlib

/-!
Shallow embedding of the growth-automation core of the socialmediamanager
repository, covering:

* `src/src/core/follow_automation.py` — platforms, action types, per-platform
  hourly rate-limit tables, `_check_rate_limit`, `execute_follow_action`, and
  the action loop of `run_campaign`;
* `src/src/growth_engine/growth_engine.py` — user profiles, communities,
  `join_community`, `award_badge`, `update_leaderboard`,
  `_generate_collab_suggestions`;
* `src/growth_engine_scheduler.py` — the daily collaboration-suggestions job;
* `src/src/core/ultimate_follow_builder.py` — `_update_account_health`.

Python dictionaries are modelled as association lists over `String` keys
(insertion order preserved, assignment replaces in place or appends at the
end, exactly as CPython dicts behave).  `datetime` timestamps are modelled as
integer seconds; `timedelta(hours=1)` is 3600.  Randomised collaborators
(the platform executor, discovery) are modelled as explicit inputs.
Python's stable `list.sort(key=..., reverse=True)` is modelled by a stable
descending insertion sort (`sortByDesc`).
-/

namespace SMM

/-- Association-list lookup: Python `d[k]` / `k in d` on an
insertion-ordered dict. -/
def alookup {κ α : Type} [DecidableEq κ] : List (κ × α) → κ → Option α
  | [], _ => none
  | (k, v) :: rest, key => if key = k then some v else alookup rest key

/-- Replace the value stored at an existing key, keeping its position:
Python `d[k] = v` when `k in d`. -/
def updateKey {κ α : Type} [DecidableEq κ] : List (κ × α) → κ → α → List (κ × α)
  | [], _, _ => []
  | (k0, v0) :: rest, k, v =>
      (if k0 = k then (k0, v) else (k0, v0)) :: updateKey rest k v

/-- Python `d[k] = v`: overwrite in place when the key exists, else append. -/
def setKey {κ α : Type} [DecidableEq κ] (l : List (κ × α)) (k : κ) (v : α) :
    List (κ × α) :=
  match alookup l k with
  | some _ => updateKey l k v
  | none => l ++ [(k, v)]

/-- `PlatformType` enum of `follow_automation.py`. -/
inductive PlatformType
  | instagram
  | twitter
  | tiktok
  | linkedin
  | youtube
deriving DecidableEq

/-- `ActionType` enum of `follow_automation.py`. -/
inductive ActionType
  | follow
  | unfollow
  | like
  | comment
  | dm
  | story_view
deriving DecidableEq

/-- The `.value` string of an `ActionType` member. -/
def ActionType.value : ActionType → String
  | .follow => "follow"
  | .unfollow => "unfollow"
  | .like => "like"
  | .comment => "comment"
  | .dm => "dm"
  | .story_view => "story_view"

/-- `TargetingType` enum of `follow_automation.py`. -/
inductive TargetingType
  | hashtag
  | competitor_followers
  | location
  | interests
  | engagement_based
  | niche
deriving DecidableEq

/-- `FollowAutomation._initialize_rate_limits` combined with
`self.rate_limits.get(platform, {})` from `_check_rate_limit`: the
per-platform table of hourly budgets; platforms absent from the dict
(linkedin, youtube) yield the empty table. -/
def rate_limits : PlatformType → List (String × Nat)
  | .instagram =>
      [("follows_per_hour", 20), ("unfollows_per_hour", 20),
       ("likes_per_hour", 50), ("comments_per_hour", 10),
       ("dms_per_hour", 5), ("story_views_per_hour", 100)]
  | .twitter =>
      [("follows_per_hour", 30), ("unfollows_per_hour", 30),
       ("likes_per_hour", 100), ("comments_per_hour", 20),
       ("dms_per_hour", 10), ("retweets_per_hour", 20)]
  | .tiktok =>
      [("follows_per_hour", 25), ("unfollows_per_hour", 25),
       ("likes_per_hour", 80), ("comments_per_hour", 15),
       ("dms_per_hour", 8), ("video_views_per_hour", 200)]
  | .linkedin => []
  | .youtube => []

/-- `action_key = f"{action_type.value}s_per_hour"` in `_check_rate_limit`. -/
def actionKey (t : ActionType) : String := t.value ++ "s_per_hour"

/-- `FollowCampaign` dataclass (the `target_criteria` dict and `created_at`
are irrelevant to the verified operations and omitted). -/
structure FollowCampaign where
  id : String
  name : String
  platform : PlatformType
  targeting_type : TargetingType
  daily_follow_limit : Nat
  daily_unfollow_limit : Nat
  engagement_window_days : Nat
  is_active : Bool := true
  total_follows : Nat := 0
  total_unfollows : Nat := 0
  total_engagements : Nat := 0
deriving DecidableEq

/-- `FollowAction` dataclass (`engagement_metrics` is never populated by the
verified code paths and is omitted). -/
structure FollowAction where
  id : String
  campaign_id : String
  action_type : ActionType
  target_username : String
  platform : PlatformType
  timestamp : Int
  success : Bool := false
  error_message : String := ""
deriving DecidableEq

/-- Mutable state of a `FollowAutomation` object: the `campaigns` dict and
the append-only `actions` list. -/
structure AutomationState where
  campaigns : List (String × FollowCampaign)
  actions : List FollowAction
deriving DecidableEq

/-- `FollowAutomation._check_rate_limit(platform, action_type)` evaluated at
current time `now`: if the platform/action key has no configured budget the
action is allowed; otherwise count recorded actions of that platform and type
with `timestamp > now - 1 hour` and require the count to be strictly below
the budget. -/
def check_rate_limit (s : AutomationState) (now : Int) (platform : PlatformType)
    (action_type : ActionType) : Bool :=
  match alookup (rate_limits platform) (actionKey action_type) with
  | none => true
  | some lim =>
      let one_hour_ago := now - 3600
      let recent := s.actions.filter (fun a =>
        decide (a.platform = platform) && decide (a.action_type = action_type) &&
        decide (one_hour_ago < a.timestamp))
      decide (recent.length < lim)

/-- Outcome of the simulated execution inside `execute_follow_action`'s
`try` block (`_human_delay` + `_execute_platform_action`): either the
platform executor returns a boolean, or an exception is raised. -/
inductive ExecOutcome
  | result (success : Bool)
  | raised (msg : String)
deriving DecidableEq

/-- The campaign-counter update on a successful action
(`execute_follow_action`, the `if success:` branch): follow and unfollow bump
their own counters; like, comment and dm bump `total_engagements`;
`story_view` bumps nothing. -/
def bumpCounters (c : FollowCampaign) : ActionType → FollowCampaign
  | .follow => { c with total_follows := c.total_follows + 1 }
  | .unfollow => { c with total_unfollows := c.total_unfollows + 1 }
  | .like => { c with total_engagements := c.total_engagements + 1 }
  | .comment => { c with total_engagements := c.total_engagements + 1 }
  | .dm => { c with total_engagements := c.total_engagements + 1 }
  | .story_view => c

/-- The success bit assigned to `action.success` in `execute_follow_action`:
the executor's boolean, or `False` when the `try` block raised. -/
def execSuccess : ExecOutcome → Bool
  | .result b => b
  | .raised _ => false

/-- The `action.error_message` assigned in `execute_follow_action`. -/
def execErrorMessage : ExecOutcome → String
  | .result true => ""
  | .result false => "Action failed"
  | .raised m => m

/-- The `FollowAction` record created by `execute_follow_action` once the
rate-limit check has passed. -/
def mkExecAction (campaign_id target_username : String) (action_type : ActionType)
    (now : Int) (outcome : ExecOutcome) (platform : PlatformType) : FollowAction :=
  { id := "action-" ++ toString now
    campaign_id := campaign_id
    action_type := action_type
    target_username := target_username
    platform := platform
    timestamp := now
    success := execSuccess outcome
    error_message := execErrorMessage outcome }

/-- `FollowAutomation.execute_follow_action(campaign_id, target_username,
action_type)` at time `now` with executor outcome `outcome`.  Unknown
campaign id raises `ValueError`; a failed rate-limit check raises before any
action record is created; otherwise an action is recorded (success taken from
the executor, an in-`try` exception yields `success=False` with its message),
the matching campaign counter is bumped on success, and the action is
appended to the log. -/
def execute_follow_action (s : AutomationState) (campaign_id target_username : String)
    (action_type : ActionType) (now : Int) (outcome : ExecOutcome) :
    Except String (AutomationState × FollowAction) :=
  match alookup s.campaigns campaign_id with
  | none => .error ("Campaign " ++ campaign_id ++ " not found")
  | some campaign =>
    if check_rate_limit s now campaign.platform action_type then
      let action := mkExecAction campaign_id target_username action_type now outcome campaign.platform
      let campaigns' :=
        if execSuccess outcome then updateKey s.campaigns campaign_id (bumpCounters campaign action_type)
        else s.campaigns
      .ok ({ campaigns := campaigns', actions := s.actions ++ [action] }, action)
    else
      .error ("Rate limit exceeded for " ++ action_type.value)

/-- One call to `execute_follow_action` in a sequential trace: its arguments,
the wall-clock time of the call and the executor outcome. -/
structure Call where
  campaign_id : String
  target_username : String
  action_type : ActionType
  now : Int
  outcome : ExecOutcome
deriving DecidableEq

/-- Run a sequence of `execute_follow_action` calls; a call that raises
(unknown campaign or rate-limit denial) changes nothing and the trace
continues. -/
def runTrace (s : AutomationState) : List Call → AutomationState
  | [] => s
  | c :: cs =>
    match execute_follow_action s c.campaign_id c.target_username c.action_type c.now c.outcome with
    | .error _ => runTrace s cs
    | .ok (s', _) => runTrace s' cs

/-- The calls of a trace happen at nondecreasing wall-clock times, all at or
after `t0`. -/
def timesMono : Int → List Call → Bool
  | _, [] => true
  | t, c :: cs => decide (t ≤ c.now) && timesMono c.now cs

/-- Number of recorded actions with platform `P`, action type `T` and
timestamp within the trailing one-hour window of time `t`. -/
def windowCount (s : AutomationState) (P : PlatformType) (T : ActionType)
    (t : Int) : Nat :=
  (s.actions.filter (fun a =>
    decide (a.platform = P) && decide (a.action_type = T) &&
    decide (t - 3600 < a.timestamp) && decide (a.timestamp ≤ t))).length

/-- The body of the target loop of `FollowAutomation.run_campaign`: for each
target (paired with the wall-clock time of its call and its executor
outcome) call `execute_follow_action(campaign_id, username, FOLLOW)`; count
executed and successful actions; `except Exception: break` means any raising
call (in particular a rate-limit denial) terminates the loop at once with the
state unchanged by that call. -/
def campaign_loop (s : AutomationState) (campaign_id : String) :
    List (String × Int × ExecOutcome) → AutomationState × Nat × Nat
  | [] => (s, 0, 0)
  | (username, now, outcome) :: rest =>
    match execute_follow_action s campaign_id username .follow now outcome with
    | .error _ => (s, 0, 0)
    | .ok (s', act) =>
      let r := campaign_loop s' campaign_id rest
      (r.1, r.2.1 + 1, r.2.2 + (if act.success then 1 else 0))

/-- `FollowAutomation.run_campaign`: raise on unknown campaign, else run the
follow loop over the discovered targets truncated to `daily_follow_limit`
(discovery is randomised in the source and is modelled as the input target
list).  Returns the final state with `actions_executed` and
`successful_actions`. -/
def run_campaign (s : AutomationState) (campaign_id : String)
    (targets : List (String × Int × ExecOutcome)) :
    Except String (AutomationState × Nat × Nat) :=
  match alookup s.campaigns campaign_id with
  | none => .error ("Campaign " ++ campaign_id ++ " not found")
  | some campaign => .ok (campaign_loop s campaign_id (targets.take campaign.daily_follow_limit))

/-! ### Growth engine (`src/src/growth_engine/growth_engine.py`) -/

/-- `CommunityType` enum. -/
inductive CommunityType
  | niche_finder
  | problem_solver
  | collaboration
  | engagement
deriving DecidableEq

/-- `BadgeType` enum. -/
inductive BadgeType
  | first_comment
  | weekly_top
  | collab_master
  | engagement_king
  | content_creator
deriving DecidableEq

/-- `MicroCommunity` dataclass (`templates`, `created_at` and the unused
float `engagement_score` are omitted). -/
structure MicroCommunity where
  id : String
  name : String
  type : CommunityType
  description : String
  members : List String := []
deriving DecidableEq

/-- `UserProfile` dataclass. -/
structure UserProfile where
  user_id : String
  username : String
  xp_points : Nat := 0
  level : Nat := 1
  badges : List BadgeType := []
  communities : List String := []
  weekly_engagement : Nat := 0
  total_posts : Nat := 0
  collaboration_count : Nat := 0
deriving DecidableEq

/-- One entry of the leaderboard computed by `update_leaderboard`. -/
structure LeaderboardEntry where
  user_id : String
  username : String
  score : Nat
  xp_points : Nat
  weekly_engagement : Nat
  collaboration_count : Nat
deriving DecidableEq

/-- One collaboration suggestion emitted by `_generate_collab_suggestions`. -/
structure CollabSuggestion where
  user1_id : String
  user2_id : String
  reason : String
  score : Nat
deriving DecidableEq

/-- Mutable state of a `GrowthEngine` object (the `templates`,
`collaborations` and `background_jobs` registries are untouched by the
verified operations and omitted). -/
structure GrowthEngineState where
  communities : List (String × MicroCommunity)
  users : List (String × UserProfile)
  leaderboard_data : List (String × List LeaderboardEntry)
deriving DecidableEq

/-- `GrowthEngine.join_community(user_id, community_id)`: unknown community
is rejected; when the user id is not yet a member it is appended to the
community's member list, and — only when a `UserProfile` exists for it — the
profile gains 10 XP and records the community; an already-member user id is
rejected. -/
def join_community (s : GrowthEngineState) (user_id community_id : String) :
    GrowthEngineState × Bool :=
  match alookup s.communities community_id with
  | none => (s, false)
  | some community =>
    if user_id ∈ community.members then (s, false)
    else
      let community' := { community with members := community.members ++ [user_id] }
      let s1 := { s with communities := updateKey s.communities community_id community' }
      match alookup s1.users user_id with
      | none => (s1, true)
      | some u =>
        let u' := { u with xp_points := u.xp_points + 10,
                           communities := u.communities ++ [community_id] }
        ({ s1 with users := updateKey s1.users user_id u' }, true)

/-- `GrowthEngine.create_user_profile(user_id, username)`. -/
def create_user_profile (s : GrowthEngineState) (user_id username : String) :
    GrowthEngineState :=
  { s with users := setKey s.users user_id { user_id := user_id, username := username } }

/-- The `xp_rewards` dict literal inside `GrowthEngine.award_badge`. -/
def xp_rewards : List (BadgeType × Nat) :=
  [(.first_comment, 5), (.weekly_top, 50), (.collab_master, 25),
   (.engagement_king, 30), (.content_creator, 20)]

/-- The updated profile after a fresh badge award: the badge is appended
and `xp_rewards.get(badge_type, 10)` XP added. -/
def awardProfile (u : UserProfile) (badge_type : BadgeType) : UserProfile :=
  { u with badges := u.badges ++ [badge_type],
           xp_points := u.xp_points + (alookup xp_rewards badge_type).getD 10 }

/-- `GrowthEngine.award_badge(user_id, badge_type)`: unknown user is
rejected; a badge already present is rejected (no duplicate, no XP);
otherwise the profile is updated by `awardProfile`. -/
def award_badge (s : GrowthEngineState) (user_id : String) (badge_type : BadgeType) :
    GrowthEngineState × Bool :=
  match alookup s.users user_id with
  | none => (s, false)
  | some u =>
    if badge_type ∈ u.badges then (s, false)
    else ({ s with users := updateKey s.users user_id (awardProfile u badge_type) }, true)

/-- Stable insertion of `x` into `l` for a descending sort by `key`:
`x` is placed before the first element whose key is not greater than
`key x`.  This is the insertion step of the unique stable descending sort,
the behaviour of Python's `list.sort(key=..., reverse=True)`. -/
def insertByDesc {α : Type} (key : α → Nat) (x : α) : List α → List α
  | [] => [x]
  | y :: ys => if key y ≤ key x then x :: y :: ys else y :: insertByDesc key x ys

/-- Stable descending sort by `key`: Python's stable
`list.sort(key=..., reverse=True)`. -/
def sortByDesc {α : Type} (key : α → Nat) : List α → List α
  | [] => []
  | x :: xs => insertByDesc key x (sortByDesc key xs)

/-- The per-user score and entry computed by `update_leaderboard`. -/
def mkLeaderboardEntry (user_id : String) (u : UserProfile) : LeaderboardEntry :=
  { user_id := user_id
    username := u.username
    score := u.xp_points + u.weekly_engagement * 2 + u.collaboration_count * 10
    xp_points := u.xp_points
    weekly_engagement := u.weekly_engagement
    collaboration_count := u.collaboration_count }

/-- `GrowthEngine.update_leaderboard(platform)` (Python default argument
`platform="all"`): score every user, sort descending by score with Python's
stable sort, store the top 10 under the platform key and return them. -/
def update_leaderboard (s : GrowthEngineState) (platform : String) :
    GrowthEngineState × List LeaderboardEntry :=
  let user_scores := s.users.map (fun p => mkLeaderboardEntry p.1 p.2)
  let sorted := sortByDesc (fun e => e.score) user_scores
  let top := sorted.take 10
  ({ s with leaderboard_data := setKey s.leaderboard_data platform top }, top)

/-- `len(set(u.communities) & set(v.communities))`: the number of distinct
communities shared by two profiles. -/
def sharedCount (u v : UserProfile) : Nat :=
  (u.communities.dedup.filter (fun c => decide (c ∈ v.communities))).length

/-- The suggestion emitted for an ordered pair in
`_generate_collab_suggestions`: distinct user ids sharing at least one
community yield a suggestion scored by the shared-community count. -/
def suggestFor (u v : UserProfile) : Option CollabSuggestion :=
  if u.user_id ≠ v.user_id ∧ 0 < sharedCount u v then
    some { user1_id := u.user_id, user2_id := v.user_id,
           reason := "Similar community interests", score := sharedCount u v }
  else none

/-- The double loop of `_generate_collab_suggestions` over the active-user
list: each user is paired with every later user. -/
def pairsSuggestions : List UserProfile → List CollabSuggestion
  | [] => []
  | u :: rest => rest.filterMap (suggestFor u) ++ pairsSuggestions rest

/-- `GrowthEngine._generate_collab_suggestions`: restrict to active users
(`weekly_engagement > 0`, in registry order) and emit a scored suggestion
for every later active user sharing at least one community. -/
def generate_collab_suggestions (s : GrowthEngineState) : List CollabSuggestion :=
  pairsSuggestions ((s.users.map Prod.snd).filter (fun u => decide (0 < u.weekly_engagement)))

/-- `GrowthEngineScheduler._async_daily_collab_suggestions_job`: generate
suggestions, keep those with score ≥ 2, sort descending by score (stable),
persist the top 10. -/
def collab_suggestions_job (s : GrowthEngineState) : List CollabSuggestion :=
  let suggestions := generate_collab_suggestions s
  let ranked := suggestions.filter (fun x => decide (2 ≤ x.score))
  (sortByDesc (fun x => x.score) ranked).take 10

/-! ### Safety monitor (`src/src/core/ultimate_follow_builder.py`) -/

/-- One platform's entry of `UltimateFollowBuilder.account_health`
(`last_action` and `suspensions` are never updated by the verified cycle and
are omitted).  `health_score` is a float in the source holding only integer
values; it is modelled as an integer. -/
structure SafetyRecord where
  health_score : Int := 100
  daily_actions : Nat := 0
  warnings : List String := []
  rate_limit_hits : Nat := 0
deriving DecidableEq

/-- The per-platform body of `UltimateFollowBuilder._update_account_health`:
penalise high daily action volume (strictly more than 80% of the daily
follow limit) by 5, penalise recorded rate-limit hits by 10, floor the score
at 0 via `max(..., 0)`, then reset `daily_actions`. -/
def update_health_record (daily_follow_limit : Nat) (h : SafetyRecord) : SafetyRecord :=
  let h1 :=
    if (daily_follow_limit : ℚ) * 0.8 < (h.daily_actions : ℚ) then
      { h with health_score := max (h.health_score - 5) 0,
               warnings := h.warnings ++ ["High daily action count"] }
    else h
  let h2 :=
    if 0 < h1.rate_limit_hits then
      { h1 with health_score := max (h1.health_score - 10) 0,
                warnings := h1.warnings ++ ["Rate limit exceeded"] }
    else h1
  { h2 with daily_actions := 0 }

/-- `UltimateFollowBuilder._update_account_health`: run one cycle of the
per-platform update over every configured platform's record. -/
def update_account_health (daily_follow_limit : Nat)
    (account_health : List (String × SafetyRecord)) : List (String × SafetyRecord) :=
  account_health.map (fun p => (p.1, update_health_record daily_follow_limit p.2))

/-! ### Helper lemmas: association lists and filters -/

theorem alookup_cons {κ α : Type} [DecidableEq κ] (k0 : κ) (v0 : α) (rest : List (κ × α))
    (key : κ) :
    alookup ((k0, v0) :: rest) key = if key = k0 then some v0 else alookup rest key := rfl

theorem updateKey_cons {κ α : Type} [DecidableEq κ] (k0 : κ) (v0 : α) (rest : List (κ × α))
    (k : κ) (v : α) :
    updateKey ((k0, v0) :: rest) k v =
      (if k0 = k then (k0, v) else (k0, v0)) :: updateKey rest k v := rfl

theorem alookup_updateKey_eq {κ α : Type} [DecidableEq κ] (l : List (κ × α)) (k : κ) (v : α) :
    alookup (updateKey l k v) k = (alookup l k).map (fun _ => v) := by
  induction l with
  | nil => rfl
  | cons p rest ih =>
    obtain ⟨pk, pv⟩ := p
    by_cases h : pk = k
    · subst h
      rw [updateKey_cons, if_pos rfl, alookup_cons, if_pos rfl, alookup_cons, if_pos rfl]
      rfl
    · have h' : ¬ k = pk := fun hk => h hk.symm
      rw [updateKey_cons, if_neg h, alookup_cons, if_neg h', alookup_cons, if_neg h']
      exact ih

theorem alookup_updateKey_ne {κ α : Type} [DecidableEq κ] (l : List (κ × α)) (k k' : κ) (v : α)
    (hne : k' ≠ k) : alookup (updateKey l k v) k' = alookup l k' := by
  induction l with
  | nil => rfl
  | cons p rest ih =>
    obtain ⟨pk, pv⟩ := p
    by_cases h : pk = k
    · have h' : ¬ k' = pk := fun hk => hne (hk.trans h)
      rw [updateKey_cons, if_pos h, alookup_cons, if_neg h', alookup_cons, if_neg h']
      exact ih
    · by_cases h2 : k' = pk
      · rw [updateKey_cons, if_neg h, alookup_cons, if_pos h2, alookup_cons, if_pos h2]
      · rw [updateKey_cons, if_neg h, alookup_cons, if_neg h2, alookup_cons, if_neg h2]
        exact ih

theorem alookup_append_single {κ α : Type} [DecidableEq κ] (l : List (κ × α)) (k : κ) (v : α)
    (h : alookup l k = none) : alookup (l ++ [(k, v)]) k = some v := by
  induction l with
  | nil => rw [List.nil_append, alookup_cons, if_pos rfl]
  | cons p rest ih =>
    obtain ⟨pk, pv⟩ := p
    by_cases hk : k = pk
    · rw [alookup_cons, if_pos hk] at h
      exact absurd h (by simp)
    · rw [alookup_cons, if_neg hk] at h
      rw [List.cons_append, alookup_cons, if_neg hk]
      exact ih h

theorem alookup_setKey_eq {κ α : Type} [DecidableEq κ] (l : List (κ × α)) (k : κ) (v : α) :
    alookup (setKey l k v) k = some v := by
  unfold setKey
  cases hl : alookup l k with
  | none => exact alookup_append_single l k v hl
  | some w => simp [alookup_updateKey_eq, hl]

theorem filter_length_mono {α : Type} {p q : α → Bool}
    (h : ∀ a, p a = true → q a = true) :
    ∀ l : List α, (l.filter p).length ≤ (l.filter q).length := by
  intro l
  induction l with
  | nil => simp
  | cons x xs ih =>
    cases hp : p x with
    | true =>
      have hq := h x hp
      simp only [List.filter_cons, hp, hq, if_true, List.length_cons]
      omega
    | false =>
      cases hq : q x <;> simp only [List.filter_cons, hp, hq] <;> simp <;> omega

/-! ### Quota machinery -/

/-- Inversion of a successful `execute_follow_action` call: the campaign was
found, the rate-limit check passed, and the returned state appends exactly
the created action, updating the campaign counters on success. -/
theorem execute_ok_inv {s : AutomationState} {cid u : String} {T : ActionType}
    {now : Int} {oc : ExecOutcome} {s' : AutomationState} {act : FollowAction}
    (hok : execute_follow_action s cid u T now oc = .ok (s', act)) :
    ∃ campaign, alookup s.campaigns cid = some campaign ∧
      check_rate_limit s now campaign.platform T = true ∧
      act = mkExecAction cid u T now oc campaign.platform ∧
      s'.actions = s.actions ++ [act] ∧
      s'.campaigns = (if execSuccess oc then
          updateKey s.campaigns cid (bumpCounters campaign T) else s.campaigns) := by
  unfold execute_follow_action at hok
  split at hok
  · simp at hok
  · rename_i campaign hc
    split at hok
    · rename_i hch
      simp only [Except.ok.injEq, Prod.mk.injEq] at hok
      obtain ⟨hs, ha⟩ := hok
      subst hs
      subst ha
      exact ⟨campaign, hc, hch, rfl, rfl, rfl⟩
    · simp at hok

/-- A rate-limit denial makes `execute_follow_action` raise before any state
is touched (the exception is raised before the action record is created). -/
theorem execute_denied {s : AutomationState} (cid u : String) {T : ActionType}
    (now : Int) (oc : ExecOutcome) {c : FollowCampaign}
    (hc : alookup s.campaigns cid = some c)
    (hdeny : check_rate_limit s now c.platform T = false) :
    execute_follow_action s cid u T now oc =
      .error ("Rate limit exceeded for " ++ T.value) := by
  unfold execute_follow_action
  rw [hc]
  simp [hdeny]

/-- One allowed execution preserves the trailing-hour bound of a configured
budget, provided no recorded action is later than the call time. -/
theorem windowCount_execute_le {s : AutomationState} {cid u : String} {T' : ActionType}
    {now : Int} {oc : ExecOutcome} {s' : AutomationState} {act : FollowAction}
    (hok : execute_follow_action s cid u T' now oc = .ok (s', act))
    {P : PlatformType} {T : ActionType} {lim : Nat}
    (hconf : alookup (rate_limits P) (actionKey T) = some lim)
    (hwin : ∀ t, windowCount s P T t ≤ lim)
    (hts : ∀ a ∈ s.actions, a.timestamp ≤ now) :
    (∀ t, windowCount s' P T t ≤ lim) ∧ ∀ a ∈ s'.actions, a.timestamp ≤ now := by
  obtain ⟨campaign, hc, hch, hact, hacts, -⟩ := execute_ok_inv hok
  have hnow : act.timestamp = now := by rw [hact]; rfl
  constructor
  · intro t
    have hwt := hwin t
    rw [windowCount] at hwt ⊢
    rw [hacts, List.filter_append, List.length_append]
    by_cases hp : act.platform = P ∧ act.action_type = T ∧
        t - 3600 < act.timestamp ∧ act.timestamp ≤ t
    · obtain ⟨hp1, hp2, hp3, hp4⟩ := hp
      have hsing : (List.filter (fun a => decide (a.platform = P) &&
          decide (a.action_type = T) && decide (t - 3600 < a.timestamp) &&
          decide (a.timestamp ≤ t)) [act]).length = 1 := by
        simp [List.filter_singleton, hp1, hp2, hp3, hp4]
      rw [hsing]
      have hplat : campaign.platform = P := by rw [hact] at hp1; exact hp1
      have htyp : T' = T := by rw [hact] at hp2; exact hp2
      rw [hplat, htyp] at hch
      rw [check_rate_limit, hconf] at hch
      have hlt : (s.actions.filter (fun a => decide (a.platform = P) &&
          decide (a.action_type = T) && decide (now - 3600 < a.timestamp))).length < lim := by
        simpa using hch
      have hmono2 : (s.actions.filter (fun a => decide (a.platform = P) &&
          decide (a.action_type = T) && decide (t - 3600 < a.timestamp) &&
          decide (a.timestamp ≤ t))).length ≤
          (s.actions.filter (fun a => decide (a.platform = P) &&
          decide (a.action_type = T) && decide (now - 3600 < a.timestamp))).length := by
        apply filter_length_mono
        intro a ha
        simp only [Bool.and_eq_true, decide_eq_true_eq] at ha ⊢
        obtain ⟨⟨⟨ha1, ha2⟩, ha3⟩, ha4⟩ := ha
        have hnt : now ≤ t := hnow ▸ hp4
        exact ⟨⟨ha1, ha2⟩, by omega⟩
      omega
    · have hzero : (List.filter (fun a => decide (a.platform = P) &&
          decide (a.action_type = T) && decide (t - 3600 < a.timestamp) &&
          decide (a.timestamp ≤ t)) [act]).length = 0 := by
        have hb : (decide (act.platform = P) && decide (act.action_type = T) &&
            decide (t - 3600 < act.timestamp) && decide (act.timestamp ≤ t)) = false := by
          apply Bool.eq_false_iff.mpr
          intro hcontra
          apply hp
          simp only [Bool.and_eq_true, decide_eq_true_eq] at hcontra
          exact ⟨hcontra.1.1.1, hcontra.1.1.2, hcontra.1.2, hcontra.2⟩
        simp [List.filter_singleton, hb]
      rw [hzero]
      omega
  · rw [hacts]
    intro a ha
    rcases List.mem_append.mp ha with hmem | hmem
    · exact hts a hmem
    · rw [List.mem_singleton.mp hmem, hnow]

/-- Trace induction for the quota invariant: from a state whose recorded
actions all precede the trace and already satisfy the bound, every state
reached by sequential `execute_follow_action` calls at nondecreasing times
satisfies the bound at every query time. -/
theorem runTrace_window_le {P : PlatformType} {T : ActionType} {lim : Nat}
    (hconf : alookup (rate_limits P) (actionKey T) = some lim) :
    ∀ (calls : List Call) (s : AutomationState) (tcur : Int),
      timesMono tcur calls = true →
      (∀ a ∈ s.actions, a.timestamp ≤ tcur) →
      (∀ t, windowCount s P T t ≤ lim) →
      ∀ t, windowCount (runTrace s calls) P T t ≤ lim := by
  intro calls
  induction calls with
  | nil =>
    intro s tcur _ _ hwin t
    exact hwin t
  | cons c cs ih =>
    intro s tcur hmono hts hwin t
    rw [timesMono, Bool.and_eq_true, decide_eq_true_eq] at hmono
    obtain ⟨hle, hmono'⟩ := hmono
    have hts' : ∀ a ∈ s.actions, a.timestamp ≤ c.now :=
      fun a ha => le_trans (hts a ha) hle
    rw [runTrace]
    cases hex : execute_follow_action s c.campaign_id c.target_username c.action_type c.now c.outcome with
    | error e => exact ih s c.now hmono' hts' hwin t
    | ok pr =>
      obtain ⟨s', act⟩ := pr
      obtain ⟨hwin', hts''⟩ := windowCount_execute_le hex hconf hwin hts'
      exact ih s' c.now hmono' hts'' hwin' t

/-! ## Concrete scenario data -/

/-- An Instagram follow campaign with fresh counters. -/
def campA : FollowCampaign :=
  { id := "c1", name := "Fitness Campaign", platform := .instagram,
    targeting_type := .hashtag, daily_follow_limit := 3,
    daily_unfollow_limit := 3, engagement_window_days := 3 }

/-- A fresh automation state holding only `campA`. -/
def stA : AutomationState := { campaigns := [("c1", campA)], actions := [] }

/-- Three follow calls at increasing times with mixed outcomes. -/
def callsA : List Call :=
  [ { campaign_id := "c1", target_username := "u1", action_type := .follow,
      now := 10, outcome := .result true },
    { campaign_id := "c1", target_username := "u2", action_type := .follow,
      now := 20, outcome := .result false },
    { campaign_id := "c1", target_username := "u3", action_type := .follow,
      now := 30, outcome := .raised "timeout" } ]

/-- Twenty successful Instagram follow actions recorded at time 0 — exactly
the hourly follow budget of Instagram. -/
def denseActions : List FollowAction :=
  (List.range 20).map (fun i =>
    { id := toString i, campaign_id := "c1", action_type := .follow,
      target_username := "x", platform := .instagram, timestamp := 0,
      success := true, error_message := "" })

/-- State whose Instagram hourly follow budget is exhausted at time 0. -/
def stDense : AutomationState := { campaigns := [("c1", campA)], actions := denseActions }

/-! ## Claims -/

/-- **C1** (quota invariant): for every platform `P` and action type `T`
with a configured per-hour budget, after any sequence of sequential
`execute_follow_action` calls (starting from a state with no recorded
actions, at nondecreasing call times) the number of recorded actions with
platform `P`, type `T` and timestamp within the trailing one hour of any
query time `t` is at most the configured budget; and a call whose quota
check is denied raises `RateLimitExceeded` before any action record is
created, so it records nothing (`runTrace` leaves the state unchanged on a
raising call by definition). -/
theorem quota_invariant :
    (∀ (s0 : AutomationState) (t0 : Int) (calls : List Call) (P : PlatformType)
        (T : ActionType) (lim : Nat) (t : Int),
      alookup (rate_limits P) (actionKey T) = some lim →
      s0.actions = [] →
      timesMono t0 calls = true →
      windowCount (runTrace s0 calls) P T t ≤ lim) ∧
    (∀ (s : AutomationState) (cid u : String) (T : ActionType) (now : Int)
        (oc : ExecOutcome) (c : FollowCampaign),
      alookup s.campaigns cid = some c →
      check_rate_limit s now c.platform T = false →
      execute_follow_action s cid u T now oc =
        .error ("Rate limit exceeded for " ++ T.value)) := by
  constructor
  · intro s0 t0 calls P T lim t hconf hempty hmono
    apply runTrace_window_le hconf calls s0 t0 hmono
    · intro a ha
      rw [hempty] at ha
      cases ha
    · intro t'
      rw [windowCount, hempty]
      simp
  · intro s cid u T now oc c hc hdeny
    exact execute_denied cid u now oc hc hdeny

/-- Witness for C1: the invariant evaluated on a concrete three-call trace,
and a concrete denied call (Instagram follow budget exhausted) that raises. -/
theorem quota_invariant_witness :
    windowCount (runTrace stA callsA) .instagram .follow 30 ≤ 20 ∧
    execute_follow_action stDense "c1" "u" .follow 10 (.result true) =
      .error ("Rate limit exceeded for " ++ ActionType.follow.value) := by
  constructor
  · exact quota_invariant.1 stA 0 callsA .instagram .follow 20 30 (by decide) rfl (by decide)
  · exact quota_invariant.2 stDense "c1" "u" .follow 10 (.result true) campA
      (by decide) (by decide)

/-- **C2** (amended): when the quota check denies an action during a
campaign run, the action is skipped without recording any Action (the
exception is raised before a record is created), but `run_campaign`'s
`except ... break` terminates the target loop at once: the state is left
exactly as it was and no further target is attempted. -/
theorem rate_limit_denial_breaks_run (s : AutomationState) (cid u : String)
    (now : Int) (oc : ExecOutcome) (rest : List (String × Int × ExecOutcome))
    (c : FollowCampaign)
    (hc : alookup s.campaigns cid = some c)
    (hdeny : check_rate_limit s now c.platform .follow = false) :
    campaign_loop s cid ((u, now, oc) :: rest) = (s, 0, 0) := by
  rw [campaign_loop, execute_denied cid u now oc hc hdeny]

/-- Witness for C2: a denied first target ends a concrete run immediately. -/
theorem rate_limit_denial_breaks_run_witness :
    campaign_loop stDense "c1" [("a", 10, .result true), ("b", 5000, .result true)] =
      (stDense, 0, 0) :=
  rate_limit_denial_breaks_run stDense "c1" "a" 10 (.result true)
    [("b", 5000, .result true)] campA (by decide) (by decide)

/-- Counterexample to C2 as stated: with the Instagram follow budget
exhausted at time 0, a run over targets "a" (at time 10, denied) and "b"
(at time 5000, which the quota check would allow) executes nothing at all —
the run does not continue with the next target, and no action for "b" is
ever recorded. -/
theorem campaign_run_continue_cex :
    run_campaign stDense "c1" [("a", 10, .result true), ("b", 5000, .result true)] =
      .ok (stDense, 0, 0) ∧
    check_rate_limit stDense 5000 .instagram .follow = true ∧
    (stDense.actions.filter (fun a => decide (a.target_username = "b"))).length = 0 := by
  refine ⟨rfl, by decide, by decide⟩

/-! ### Counter consistency (C4) -/

/-- Number of recorded successful actions with the given campaign key and
action type. -/
def countType (acts : List FollowAction) (cid : String) (T : ActionType) : Nat :=
  (acts.filter (fun a =>
    decide (a.campaign_id = cid) && decide (a.action_type = T) && a.success)).length

/-- Number of recorded successful engagement actions (like, comment or dm)
with the given campaign key. -/
def countEngagements (acts : List FollowAction) (cid : String) : Nat :=
  (acts.filter (fun a => decide (a.campaign_id = cid) &&
    (decide (a.action_type = ActionType.like) ||
     decide (a.action_type = ActionType.comment) ||
     decide (a.action_type = ActionType.dm)) && a.success)).length

/-- Every campaign's counters agree with the recorded-action log. -/
def ConsistentCounters (s : AutomationState) : Prop :=
  ∀ cid c, alookup s.campaigns cid = some c →
    c.total_follows = countType s.actions cid .follow ∧
    c.total_unfollows = countType s.actions cid .unfollow ∧
    c.total_engagements = countEngagements s.actions cid

theorem countType_append (acts : List FollowAction) (a : FollowAction)
    (cid : String) (T : ActionType) :
    countType (acts ++ [a]) cid T = countType acts cid T +
      (if a.campaign_id = cid ∧ a.action_type = T ∧ a.success = true then 1 else 0) := by
  rw [countType, countType, List.filter_append, List.length_append]
  congr 1
  by_cases h : a.campaign_id = cid ∧ a.action_type = T ∧ a.success = true
  · obtain ⟨h1, h2, h3⟩ := h
    simp [List.filter_singleton, h1, h2, h3]
  · rw [if_neg h]
    have hb : (decide (a.campaign_id = cid) && decide (a.action_type = T) && a.success) = false := by
      apply Bool.eq_false_iff.mpr
      intro hcontra
      apply h
      simp only [Bool.and_eq_true, decide_eq_true_eq] at hcontra
      exact ⟨hcontra.1.1, hcontra.1.2, hcontra.2⟩
    simp [List.filter_singleton, hb]

theorem countEngagements_append (acts : List FollowAction) (a : FollowAction)
    (cid : String) :
    countEngagements (acts ++ [a]) cid = countEngagements acts cid +
      (if a.campaign_id = cid ∧ (a.action_type = ActionType.like ∨
          a.action_type = ActionType.comment ∨ a.action_type = ActionType.dm) ∧
          a.success = true then 1 else 0) := by
  rw [countEngagements, countEngagements, List.filter_append, List.length_append]
  congr 1
  by_cases h : a.campaign_id = cid ∧ (a.action_type = ActionType.like ∨
      a.action_type = ActionType.comment ∨ a.action_type = ActionType.dm) ∧ a.success = true
  · rw [if_pos h]
    obtain ⟨h1, h2, h3⟩ := h
    have hb : (decide (a.campaign_id = cid) &&
        (decide (a.action_type = ActionType.like) ||
         decide (a.action_type = ActionType.comment) ||
         decide (a.action_type = ActionType.dm)) && a.success) = true := by
      simp only [Bool.and_eq_true, Bool.or_eq_true, decide_eq_true_eq]
      exact ⟨⟨h1, by tauto⟩, h3⟩
    simp [List.filter_singleton, hb]
  · rw [if_neg h]
    have hb : (decide (a.campaign_id = cid) &&
        (decide (a.action_type = ActionType.like) ||
         decide (a.action_type = ActionType.comment) ||
         decide (a.action_type = ActionType.dm)) && a.success) = false := by
      apply Bool.eq_false_iff.mpr
      intro hcontra
      apply h
      simp only [Bool.and_eq_true, Bool.or_eq_true, decide_eq_true_eq] at hcontra
      exact ⟨hcontra.1.1, by tauto, hcontra.2⟩
    simp [List.filter_singleton, hb]

/-- One `execute_follow_action` call preserves counter consistency. -/
theorem consistent_execute {s : AutomationState} {cid u : String} {T : ActionType}
    {now : Int} {oc : ExecOutcome} {s' : AutomationState} {act : FollowAction}
    (hok : execute_follow_action s cid u T now oc = .ok (s', act))
    (hcons : ConsistentCounters s) : ConsistentCounters s' := by
  obtain ⟨campaign, hc, hch, hact, hacts, hcamps⟩ := execute_ok_inv hok
  have hcid : act.campaign_id = cid := by rw [hact]; rfl
  have htyp : act.action_type = T := by rw [hact]; rfl
  have hsucc : act.success = execSuccess oc := by rw [hact]; rfl
  intro cid' c' hl'
  rw [hacts, countType_append, countType_append, countEngagements_append]
  by_cases heq : cid' = cid
  · subst heq
    obtain ⟨e1, e2, e3⟩ := hcons cid' campaign hc
    cases hsu : execSuccess oc with
    | true =>
      rw [hcamps, if_pos hsu, alookup_updateKey_eq, hc] at hl'
      have hc' : c' = bumpCounters campaign T := by
        simpa using hl'.symm
      subst hc'
      rw [hsucc, hsu] at *
      cases T <;>
        simp [bumpCounters, hcid, htyp, hsucc, hsu, e1, e2, e3]
    | false =>
      rw [hcamps, if_neg (by simp [hsu]), hc] at hl'
      have hc' : c' = campaign := by simpa using hl'.symm
      subst hc'
      have hfalse : act.success = false := by rw [hsucc, hsu]
      simp [hfalse, e1, e2, e3]
  · have hl'' : alookup s.campaigns cid' = some c' := by
      cases hsu : execSuccess oc with
      | true =>
        rw [hcamps, if_pos hsu, alookup_updateKey_ne _ _ _ _ heq] at hl'
        exact hl'
      | false =>
        rw [hcamps, if_neg (by simp [hsu])] at hl'
        exact hl'
    obtain ⟨e1, e2, e3⟩ := hcons cid' c' hl''
    have hne : ¬ act.campaign_id = cid' := by rw [hcid]; exact fun hx => heq hx.symm
    simp [hne, e1, e2, e3]

/-- **C4** (amended): on success `execute_follow_action` bumps
`total_follows` for a follow, `total_unfollows` for an unfollow and
`total_engagements` for like/comment/dm (a successful `story_view` bumps no
counter); consequently, starting from any counter-consistent state (in
particular a fresh one), after any sequence of calls every campaign's
`total_follows` equals the number of recorded successful FOLLOW actions
carrying its campaign id, and likewise for unfollows and for engagements
counted over like/comment/dm. -/
theorem campaign_counter_consistency (s0 : AutomationState) (calls : List Call)
    (hcons : ConsistentCounters s0) : ConsistentCounters (runTrace s0 calls) := by
  induction calls generalizing s0 with
  | nil => exact hcons
  | cons c cs ih =>
    rw [runTrace]
    cases hex : execute_follow_action s0 c.campaign_id c.target_username c.action_type c.now c.outcome with
    | error e => exact ih s0 hcons
    | ok pr =>
      obtain ⟨s', act⟩ := pr
      exact ih s' (consistent_execute hex hcons)

/-- Witness for C4: after the concrete three-call trace, the stored
`total_follows` of campaign `c1` equals the recomputed count of its
successful follow actions. -/
theorem campaign_counter_consistency_witness :
    (alookup (runTrace stA callsA).campaigns "c1").map (fun c => c.total_follows) =
      some (countType (runTrace stA callsA).actions "c1" .follow) := by
  have hinit : ConsistentCounters stA := by
    intro cid c h
    by_cases hcid : cid = "c1"
    · subst hcid
      have : c = campA := by
        rw [stA] at h
        rw [alookup_cons, if_pos rfl] at h
        exact (Option.some.inj h).symm
      subst this
      refine ⟨by decide, by decide, by decide⟩
    · rw [stA] at h
      rw [alookup_cons, if_neg hcid] at h
      exact absurd h (by simp [alookup])
  cases hl : alookup (runTrace stA callsA).campaigns "c1" with
  | none => exact absurd hl (by decide)
  | some c =>
    have h3 := (campaign_counter_consistency stA callsA hinit "c1" c hl).1
    simp [h3]

/-- Counterexample to C4 as stated: a successful `story_view` action — an
engagement-type action — leaves every campaign counter, in particular
`total_engagements`, unchanged at 0. -/
theorem story_view_counter_cex :
    (execute_follow_action stA "c1" "u" .story_view 5 (.result true)).toOption.map
      (fun p => ((alookup p.1.campaigns "c1").map
        (fun c => (c.total_follows, c.total_unfollows, c.total_engagements)),
        p.2.success)) = some (some (0, 0, 0), true) := by
  decide

/-! ### Badge idempotence (C3) -/

/-- **C3**: for an existing user without badge `b`, awarding `b` twice
grants it once: the first award appends the badge and adds its XP reward,
the second is rejected and changes nothing, leaving exactly one occurrence
of `b` and a single XP grant. -/
theorem award_badge_idempotent (s : GrowthEngineState) (uid : String)
    (b : BadgeType) (u : UserProfile)
    (hu : alookup s.users uid = some u) (hb : b ∉ u.badges) :
    let r1 := award_badge s uid b
    let r2 := award_badge r1.1 uid b
    r1.2 = true ∧ r2.2 = false ∧ r2.1 = r1.1 ∧
    (alookup r2.1.users uid).map (fun v => v.badges.count b) = some 1 ∧
    (alookup r2.1.users uid).map (fun v => v.xp_points) =
      some (u.xp_points + (alookup xp_rewards b).getD 10) := by
  intro r1 r2
  have h1 : r1 = ({ s with users := updateKey s.users uid (awardProfile u b) }, true) := by
    show award_badge s uid b = _
    simp [award_badge, hu, hb]
  have hlook : alookup r1.1.users uid = some (awardProfile u b) := by
    rw [h1]
    show alookup (updateKey s.users uid (awardProfile u b)) uid = _
    rw [alookup_updateKey_eq, hu]
    rfl
  have hmem : b ∈ (awardProfile u b).badges :=
    List.mem_append_right _ (List.mem_singleton.mpr rfl)
  have h2 : r2 = (r1.1, false) := by
    show award_badge r1.1 uid b = _
    simp [award_badge, hlook, hmem]
  refine ⟨by rw [h1], by rw [h2], by rw [h2], ?_, ?_⟩
  · rw [h2, hlook]
    have hcount : (u.badges ++ [b]).count b = 1 := by
      rw [List.count_append]
      rw [List.count_eq_zero.mpr hb]
      simp
    simpa [awardProfile] using hcount
  · rw [h2, hlook]
    rfl

/-- A fresh user profile used by concrete gamification scenarios. -/
def profU1 : UserProfile := { user_id := "u1", username := "kai" }

/-- Engine state holding exactly the fresh user `u1`. -/
def gsBadge : GrowthEngineState :=
  { communities := [], users := [("u1", profU1)], leaderboard_data := [] }

/-- Witness for C3: awarding `first_comment` to `u1` twice yields one badge
occurrence and a single 5-XP grant. -/
theorem award_badge_idempotent_witness :
    (award_badge gsBadge "u1" .first_comment).2 = true ∧
    (award_badge (award_badge gsBadge "u1" .first_comment).1 "u1" .first_comment).2 = false ∧
    (alookup (award_badge (award_badge gsBadge "u1" .first_comment).1 "u1" .first_comment).1.users
      "u1").map (fun v => (v.badges.count BadgeType.first_comment, v.xp_points)) =
      some (1, 5) := by
  obtain ⟨a1, a2, a3, a4, a5⟩ :=
    award_badge_idempotent gsBadge "u1" .first_comment profU1 (by decide) (by decide)
  refine ⟨a1, a2, ?_⟩
  cases hl : alookup (award_badge (award_badge gsBadge "u1" .first_comment).1 "u1"
      .first_comment).1.users "u1" with
  | none => rw [hl] at a4; exact absurd a4 (by simp)
  | some v =>
    rw [hl] at a4 a5
    simp only [Option.map_some'] at a4 a5 ⊢
    have hx : v.xp_points = 5 := by
      have := Option.some.inj a5
      simpa using this
    have hcnt : v.badges.count BadgeType.first_comment = 1 := Option.some.inj a4
    rw [hcnt, hx]

/-! ### Stable descending sort lemmas (C5, C8) -/

theorem insertByDesc_perm {α : Type} (key : α → Nat) (x : α) (l : List α) :
    List.Perm (insertByDesc key x l) (x :: l) := by
  induction l with
  | nil => exact List.Perm.refl _
  | cons y ys ih =>
    rw [insertByDesc]
    by_cases h : key y ≤ key x
    · rw [if_pos h]
    · rw [if_neg h]
      exact (List.Perm.cons y ih).trans (List.Perm.swap x y ys)

theorem sortByDesc_perm {α : Type} (key : α → Nat) (l : List α) :
    List.Perm (sortByDesc key l) l := by
  induction l with
  | nil => exact List.Perm.refl _
  | cons x xs ih =>
    rw [sortByDesc]
    exact (insertByDesc_perm key x (sortByDesc key xs)).trans (List.Perm.cons x ih)

theorem chain'_insertByDesc {α : Type} (key : α → Nat) (x : α) :
    ∀ l : List α, List.Chain' (fun a b => key b ≤ key a) l →
      List.Chain' (fun a b => key b ≤ key a) (insertByDesc key x l) := by
  intro l
  induction l with
  | nil => intro _; simp [insertByDesc]
  | cons y ys ih =>
    intro h
    rw [insertByDesc]
    by_cases hle : key y ≤ key x
    · rw [if_pos hle]
      exact List.chain'_cons.mpr ⟨hle, h⟩
    · rw [if_neg hle]
      have hxy : key x ≤ key y := le_of_lt (lt_of_not_le hle)
      cases ys with
      | nil => simpa [insertByDesc] using hxy
      | cons z zs =>
        have h' := (List.chain'_cons.mp h).2
        have hyz : key z ≤ key y := (List.chain'_cons.mp h).1
        have ihz := ih h'
        rw [insertByDesc] at ihz ⊢
        by_cases hzx : key z ≤ key x
        · rw [if_pos hzx] at ihz ⊢
          exact List.chain'_cons.mpr ⟨hxy, ihz⟩
        · rw [if_neg hzx] at ihz ⊢
          exact List.chain'_cons.mpr ⟨hyz, ihz⟩

theorem sortByDesc_chain' {α : Type} (key : α → Nat) (l : List α) :
    List.Chain' (fun a b => key b ≤ key a) (sortByDesc key l) := by
  induction l with
  | nil => simp [sortByDesc]
  | cons x xs ih =>
    rw [sortByDesc]
    exact chain'_insertByDesc key x _ ih

theorem filter_insertByDesc {α : Type} (key : α → Nat) (x : α) (c : Nat) :
    ∀ l : List α, (insertByDesc key x l).filter (fun y => decide (key y = c)) =
      if key x = c then x :: l.filter (fun y => decide (key y = c))
      else l.filter (fun y => decide (key y = c)) := by
  intro l
  induction l with
  | nil =>
    by_cases h : key x = c
    · simp [insertByDesc, h]
    · simp [insertByDesc, h]
  | cons y ys ih =>
    rw [insertByDesc]
    by_cases hle : key y ≤ key x
    · rw [if_pos hle]
      by_cases hx : key x = c
      · simp [List.filter_cons, hx]
      · simp [List.filter_cons, hx]
    · rw [if_neg hle]
      have hxy : key x < key y := lt_of_not_le hle
      by_cases hy : key y = c
      · by_cases hx : key x = c
        · exact absurd (hx.trans hy.symm) (ne_of_lt hxy)
        · simp [List.filter_cons, hy, hx, ih]
      · simp [List.filter_cons, hy, ih]

theorem filter_sortByDesc {α : Type} (key : α → Nat) (c : Nat) (l : List α) :
    (sortByDesc key l).filter (fun y => decide (key y = c)) =
      l.filter (fun y => decide (key y = c)) := by
  induction l with
  | nil => rfl
  | cons x xs ih =>
    rw [sortByDesc, filter_insertByDesc]
    by_cases hx : key x = c
    · rw [if_pos hx, ih, List.filter_cons]
      simp [hx]
    · rw [if_neg hx, ih, List.filter_cons]
      simp [hx]

/-! ### Leaderboard (C5) -/

/-- **C5** (amended): `update_leaderboard(platform)` scores every user by
`xp_points + weekly_engagement*2 + collaboration_count*10`
(`mkLeaderboardEntry`), sorts descending by score with Python's stable sort
— so ties are broken by the order users appear in the registry, not by
user_id — keeps at most the top 10, and both returns the result and stores
it under the platform key. -/
theorem update_leaderboard_spec (s : GrowthEngineState) (platform : String) :
    (update_leaderboard s platform).2 =
      (sortByDesc (fun e => e.score)
        (s.users.map (fun p => mkLeaderboardEntry p.1 p.2))).take 10 ∧
    alookup (update_leaderboard s platform).1.leaderboard_data platform =
      some (update_leaderboard s platform).2 ∧
    (update_leaderboard s platform).2.length ≤ 10 ∧
    List.Chain' (fun a b => b.score ≤ a.score) (update_leaderboard s platform).2 ∧
    (∀ e ∈ (update_leaderboard s platform).2,
      ∃ p ∈ s.users, e = mkLeaderboardEntry p.1 p.2) ∧
    (∀ c, (sortByDesc (fun e => e.score)
        (s.users.map (fun p => mkLeaderboardEntry p.1 p.2))).filter
          (fun e => decide (e.score = c)) =
      (s.users.map (fun p => mkLeaderboardEntry p.1 p.2)).filter
          (fun e => decide (e.score = c))) := by
  refine ⟨rfl, ?_, ?_, ?_, ?_, ?_⟩
  · show alookup (setKey s.leaderboard_data platform _) platform = _
    rw [alookup_setKey_eq]
    rfl
  · exact List.length_take_le 10 _
  · exact (sortByDesc_chain' (fun e : LeaderboardEntry => e.score) _).take 10
  · intro e he
    have hsorted : e ∈ sortByDesc (fun e : LeaderboardEntry => e.score)
        (s.users.map (fun p => mkLeaderboardEntry p.1 p.2)) :=
      List.take_subset 10 _ he
    have hmem := (sortByDesc_perm (fun e : LeaderboardEntry => e.score)
        (s.users.map (fun p => mkLeaderboardEntry p.1 p.2))).mem_iff.mp hsorted
    obtain ⟨p, hp, hpe⟩ := List.mem_map.mp hmem
    exact ⟨p, hp, hpe.symm⟩
  · intro c
    exact filter_sortByDesc (fun e : LeaderboardEntry => e.score) c _

/-- Profile "b2", registered first in the tie-break counterexample state. -/
def profB2 : UserProfile := { user_id := "b2", username := "bea" }

/-- Profile "a1", registered second in the tie-break counterexample state. -/
def profA1 : UserProfile := { user_id := "a1", username := "ari" }

/-- Engine state with two score-0 users registered in the order b2, a1. -/
def gsTie : GrowthEngineState :=
  { communities := [], users := [("b2", profB2), ("a1", profA1)],
    leaderboard_data := [] }

/-- Witness for C5: the amended statement instantiated on the concrete
two-user state: the returned snapshot is the stably sorted entry list, is
stored under the "all" key, and has length ≤ 10. -/
theorem update_leaderboard_spec_witness :
    alookup (update_leaderboard gsTie "all").1.leaderboard_data "all" =
      some (update_leaderboard gsTie "all").2 ∧
    (update_leaderboard gsTie "all").2.length ≤ 10 ∧
    List.Chain' (fun a b => b.score ≤ a.score) (update_leaderboard gsTie "all").2 := by
  obtain ⟨-, h2, h3, h4, -, -⟩ := update_leaderboard_spec gsTie "all"
  exact ⟨h2, h3, h4⟩

/-- Counterexample to C5 as stated: with equal scores, users keep registry
order ("b2" before "a1") rather than user_id-ascending order ("a1" before
"b2"): Python's stable sort does not re-order ties by user_id. -/
theorem leaderboard_tiebreak_cex :
    ((update_leaderboard gsTie "all").2.map (fun e => e.user_id) = ["b2", "a1"]) ∧
    ((update_leaderboard gsTie "all").2.map (fun e => e.score) = [0, 0]) ∧
    ¬ ((update_leaderboard gsTie "all").2.map (fun e => e.user_id) = ["a1", "b2"]) := by
  refine ⟨by decide, by decide, by decide⟩

/-! ### Badge XP ordering (C6) -/

/-- Counterexample to C6 as stated: the claimed descending chain fails,
because the XP granted for `content_creator` (20) does not exceed that for
`engagement_king` (30). -/
theorem xp_rewards_order_cex :
    ¬ ((alookup xp_rewards BadgeType.weekly_top).getD 10 >
        (alookup xp_rewards BadgeType.collab_master).getD 10 ∧
       (alookup xp_rewards BadgeType.collab_master).getD 10 >
        (alookup xp_rewards BadgeType.content_creator).getD 10 ∧
       (alookup xp_rewards BadgeType.content_creator).getD 10 >
        (alookup xp_rewards BadgeType.engagement_king).getD 10 ∧
       (alookup xp_rewards BadgeType.engagement_king).getD 10 >
        (alookup xp_rewards BadgeType.first_comment).getD 10) := by
  decide

/-- **C6** (amended): badge XP rewards are badge-specific and strictly
descending in the order weekly-top (50) > engagement-king (30) >
collab-master (25) > content-creator (20) > first-comment (5). -/
theorem xp_rewards_descending :
    (alookup xp_rewards BadgeType.weekly_top).getD 10 >
      (alookup xp_rewards BadgeType.engagement_king).getD 10 ∧
    (alookup xp_rewards BadgeType.engagement_king).getD 10 >
      (alookup xp_rewards BadgeType.collab_master).getD 10 ∧
    (alookup xp_rewards BadgeType.collab_master).getD 10 >
      (alookup xp_rewards BadgeType.content_creator).getD 10 ∧
    (alookup xp_rewards BadgeType.content_creator).getD 10 >
      (alookup xp_rewards BadgeType.first_comment).getD 10 := by
  decide

/-! ### Account health (C7) -/

/-- **C7**: one per-platform health cycle: strictly more than 80% of the
daily follow limit costs 5 health points and one warning; any rate-limit
hit costs a further 10 and another warning; each penalty floors at 0 via
`max(..., 0)`; `daily_actions` is reset to 0 and `rate_limit_hits` kept.
In particular, from health 100 with 45 daily actions against a 50 limit and
one rate-limit hit, one cycle yields health 85 and the two warnings. -/
theorem account_health_cycle (lim : Nat) (h : SafetyRecord) :
    (update_health_record lim h).daily_actions = 0 ∧
    (update_health_record lim h).rate_limit_hits = h.rate_limit_hits ∧
    (0 ≤ h.health_score → 0 ≤ (update_health_record lim h).health_score) ∧
    ((lim : ℚ) * 0.8 < (h.daily_actions : ℚ) → 0 < h.rate_limit_hits →
      (update_health_record lim h).health_score =
        max (max (h.health_score - 5) 0 - 10) 0 ∧
      (update_health_record lim h).warnings =
        h.warnings ++ ["High daily action count", "Rate limit exceeded"]) ∧
    ((lim : ℚ) * 0.8 < (h.daily_actions : ℚ) → h.rate_limit_hits = 0 →
      (update_health_record lim h).health_score = max (h.health_score - 5) 0 ∧
      (update_health_record lim h).warnings =
        h.warnings ++ ["High daily action count"]) ∧
    (¬ (lim : ℚ) * 0.8 < (h.daily_actions : ℚ) → 0 < h.rate_limit_hits →
      (update_health_record lim h).health_score = max (h.health_score - 10) 0 ∧
      (update_health_record lim h).warnings = h.warnings ++ ["Rate limit exceeded"]) ∧
    (¬ (lim : ℚ) * 0.8 < (h.daily_actions : ℚ) → h.rate_limit_hits = 0 →
      update_health_record lim h = { h with daily_actions := 0 }) ∧
    update_health_record 50
      { health_score := 100, daily_actions := 45, warnings := [], rate_limit_hits := 1 } =
      { health_score := 85, daily_actions := 0,
        warnings := ["High daily action count", "Rate limit exceeded"],
        rate_limit_hits := 1 } := by
  refine ⟨rfl, ?_, ?_, ?_, ?_, ?_, ?_, ?_⟩
  · unfold update_health_record
    by_cases c1 : (lim : ℚ) * 0.8 < (h.daily_actions : ℚ) <;>
      by_cases c2 : 0 < h.rate_limit_hits <;>
      simp [c1, c2]
  · intro h0
    unfold update_health_record
    by_cases c1 : (lim : ℚ) * 0.8 < (h.daily_actions : ℚ) <;>
      by_cases c2 : 0 < h.rate_limit_hits <;>
      simp [c1, c2] <;>
      first
        | exact le_max_right _ _
        | exact h0
  · intro c1 c2
    unfold update_health_record
    simp [c1, c2]
  · intro c1 c2
    have c2' : ¬ 0 < h.rate_limit_hits := by omega
    unfold update_health_record
    simp [c1, c2']
  · intro c1 c2
    unfold update_health_record
    simp [c1, c2]
  · intro c1 c2
    have c2' : ¬ 0 < h.rate_limit_hits := by omega
    unfold update_health_record
    simp [c1, c2']
  · norm_num [update_health_record]

/-- Witness for C7: the concrete scenario extracted from the theorem. -/
theorem account_health_cycle_witness :
    update_health_record 50
      { health_score := 100, daily_actions := 45, warnings := [], rate_limit_hits := 1 } =
      { health_score := 85, daily_actions := 0,
        warnings := ["High daily action count", "Rate limit exceeded"],
        rate_limit_hits := 1 } :=
  (account_health_cycle 50
    { health_score := 100, daily_actions := 45, warnings := [],
      rate_limit_hits := 1 }).2.2.2.2.2.2.2

/-! ### Collaboration suggestions (C8) -/

theorem mem_pairsSuggestions {u v : UserProfile} :
    ∀ (l1 : List UserProfile) (l2 l3 : List UserProfile),
      u.user_id ≠ v.user_id → 0 < sharedCount u v →
      ({ user1_id := u.user_id, user2_id := v.user_id,
         reason := "Similar community interests",
         score := sharedCount u v } : CollabSuggestion) ∈
        pairsSuggestions (l1 ++ u :: (l2 ++ v :: l3)) := by
  intro l1
  induction l1 with
  | nil =>
    intro l2 l3 hne hsh
    rw [List.nil_append, pairsSuggestions]
    apply List.mem_append_left
    apply List.mem_filterMap.mpr
    refine ⟨v, List.mem_append_right _ (List.mem_cons_self _ _), ?_⟩
    rw [suggestFor, if_pos ⟨hne, hsh⟩]
  | cons w ws ih =>
    intro l2 l3 hne hsh
    rw [List.cons_append, pairsSuggestions]
    exact List.mem_append_right _ (ih l2 l3 hne hsh)

/-- **C8** (amended): the suggestion generator emits, for every ordered pair
of distinct ACTIVE users (`weekly_engagement > 0`; inactive users are
excluded) sharing at least one community, a suggestion scored by the
shared-community count; the daily job keeps the suggestions with score ≥ 2,
sorts them descending (stably) and persists at most the top 10. -/
theorem collab_suggestions_spec :
    (∀ (s : GrowthEngineState) (l1 l2 l3 : List UserProfile) (u v : UserProfile),
      (s.users.map Prod.snd).filter (fun w => decide (0 < w.weekly_engagement)) =
        l1 ++ u :: (l2 ++ v :: l3) →
      u.user_id ≠ v.user_id → 0 < sharedCount u v →
      ({ user1_id := u.user_id, user2_id := v.user_id,
         reason := "Similar community interests",
         score := sharedCount u v } : CollabSuggestion) ∈
        generate_collab_suggestions s) ∧
    (∀ s : GrowthEngineState,
      collab_suggestions_job s =
        (sortByDesc (fun x => x.score)
          ((generate_collab_suggestions s).filter (fun x => decide (2 ≤ x.score)))).take 10 ∧
      (collab_suggestions_job s).length ≤ 10 ∧
      List.Chain' (fun a b => b.score ≤ a.score) (collab_suggestions_job s) ∧
      (∀ x ∈ collab_suggestions_job s,
        2 ≤ x.score ∧ x ∈ generate_collab_suggestions s)) := by
  constructor
  · intro s l1 l2 l3 u v hact hne hsh
    rw [generate_collab_suggestions, hact]
    exact mem_pairsSuggestions l1 l2 l3 hne hsh
  · intro s
    refine ⟨rfl, List.length_take_le 10 _,
      (sortByDesc_chain' (fun x : CollabSuggestion => x.score) _).take 10, ?_⟩
    intro x hx
    have hsorted : x ∈ sortByDesc (fun x : CollabSuggestion => x.score)
        ((generate_collab_suggestions s).filter (fun x => decide (2 ≤ x.score))) :=
      List.take_subset 10 _ hx
    have hmem := (sortByDesc_perm (fun x : CollabSuggestion => x.score) _).mem_iff.mp hsorted
    have hf := List.mem_filter.mp hmem
    exact ⟨by simpa using hf.2, hf.1⟩

/-- Inactive profile "a" sharing two communities with "b". -/
def profShareA : UserProfile :=
  { user_id := "a", username := "ann", communities := ["c1", "c2"] }

/-- Inactive profile "b" sharing two communities with "a". -/
def profShareB : UserProfile :=
  { user_id := "b", username := "ben", communities := ["c1", "c2"] }

/-- Engine state with two INACTIVE users sharing exactly two communities. -/
def gsInactive : GrowthEngineState :=
  { communities := [], users := [("a", profShareA), ("b", profShareB)],
    leaderboard_data := [] }

/-- Counterexample to C8 as stated: two distinct users sharing exactly two
communities but with `weekly_engagement = 0` produce no suggestion at all —
neither the generator's output nor the job's output contains their pair. -/
theorem collab_inactive_pair_cex :
    sharedCount profShareA profShareB = 2 ∧
    profShareA.user_id ≠ profShareB.user_id ∧
    generate_collab_suggestions gsInactive = [] ∧
    collab_suggestions_job gsInactive = [] := by
  refine ⟨by decide, by decide, by decide, by decide⟩

/-- Active profile "a" (weekly_engagement 1) sharing two communities. -/
def profActA : UserProfile :=
  { user_id := "a", username := "ann", communities := ["c1", "c2"],
    weekly_engagement := 1 }

/-- Active profile "b" (weekly_engagement 2) sharing two communities. -/
def profActB : UserProfile :=
  { user_id := "b", username := "ben", communities := ["c1", "c2"],
    weekly_engagement := 2 }

/-- Engine state with two ACTIVE users sharing exactly two communities. -/
def gsActive : GrowthEngineState :=
  { communities := [], users := [("a", profActA), ("b", profActB)],
    leaderboard_data := [] }

/-- Witness for C8: two active users sharing exactly two communities yield
the score-2 suggestion in the generator's output, and the job output stays
within its top-10 bound. -/
theorem collab_suggestions_spec_witness :
    ({ user1_id := "a", user2_id := "b", reason := "Similar community interests",
       score := 2 } : CollabSuggestion) ∈ generate_collab_suggestions gsActive ∧
    (collab_suggestions_job gsActive).length ≤ 10 := by
  constructor
  · have hm := collab_suggestions_spec.1 gsActive [] [] [] profActA profActB
      (by decide) (by decide) (by decide)
    exact hm
  · exact (collab_suggestions_spec.2 gsActive).2.1

/-! ### Unknown-id rejection (C9) -/

/-- The state produced by `join_community` for a member-to-be without a
profile: the user id is appended to the community's member list and nothing
else changes. -/
def joinResultState (s : GrowthEngineState) (cid : String) (c : MicroCommunity)
    (uid : String) : GrowthEngineState :=
  { s with communities :=
      updateKey s.communities cid ({ c with members := c.members ++ [uid] }) }

/-- **C9** (amended): `award_badge` with an unknown user id and
`join_community` with an unknown community id are rejected with no state
change; but `join_community` with an existing community and a user id that
has no `UserProfile` (and is not already a member) still appends the id to
the community's member list and reports success — only the user registry
(hence XP) is untouched. -/
theorem unknown_id_rejection :
    (∀ (s : GrowthEngineState) (uid : String) (b : BadgeType),
      alookup s.users uid = none → award_badge s uid b = (s, false)) ∧
    (∀ (s : GrowthEngineState) (uid cid : String),
      alookup s.communities cid = none → join_community s uid cid = (s, false)) ∧
    (∀ (s : GrowthEngineState) (uid cid : String) (c : MicroCommunity),
      alookup s.communities cid = some c → uid ∉ c.members →
      alookup s.users uid = none →
      join_community s uid cid = (joinResultState s cid c uid, true) ∧
      (joinResultState s cid c uid).users = s.users) := by
  refine ⟨?_, ?_, ?_⟩
  · intro s uid b hu
    simp [award_badge, hu]
  · intro s uid cid hc
    simp [join_community, hc]
  · intro s uid cid c hc hm hu
    constructor
    · simp [join_community, hc, hm, hu, joinResultState]
    · rfl

/-- A default community used by concrete membership scenarios. -/
def commC1 : MicroCommunity :=
  { id := "c1", name := "Engagement Pod", type := .engagement, description := "d" }

/-- Engine state with community `c1` and an empty user registry. -/
def gsGhost : GrowthEngineState :=
  { communities := [("c1", commC1)], users := [], leaderboard_data := [] }

/-- Counterexample to C9 as stated: joining community `c1` with the
profile-less user id "ghost" succeeds and mutates the community's member
list — the engine state is not left exactly as it was. -/
theorem join_unknown_user_cex :
    (join_community gsGhost "ghost" "c1").2 = true ∧
    (alookup (join_community gsGhost "ghost" "c1").1.communities "c1").map
      (fun c => c.members) = some ["ghost"] ∧
    (join_community gsGhost "ghost" "c1").1 ≠ gsGhost := by
  refine ⟨by decide, by decide, by decide⟩

/-- Witness for C9: concrete rejections without state change, and the
member-append behaviour for a profile-less user. -/
theorem unknown_id_rejection_witness :
    award_badge gsGhost "nobody" .weekly_top = (gsGhost, false) ∧
    join_community gsGhost "u" "nope" = (gsGhost, false) ∧
    join_community gsGhost "ghost" "c1" = (joinResultState gsGhost "c1" commC1 "ghost", true) := by
  refine ⟨unknown_id_rejection.1 gsGhost "nobody" .weekly_top (by decide),
          unknown_id_rejection.2.1 gsGhost "u" "nope" (by decide),
          (unknown_id_rejection.2.2 gsGhost "ghost" "c1" commC1
            (by decide) (by decide) (by decide)).1⟩

/-! ### Unconfigured budgets are never rate-limited (C10) -/

/-- **C10**: the quota check allows every action whose
(platform, action-type) pair has no configured per-hour budget, regardless
of the recorded actions; in particular linkedin and youtube have no budgets
at all, and story_view has none on twitter or tiktok. -/
theorem unconfigured_budget_allows :
    (∀ (s : AutomationState) (now : Int) (P : PlatformType) (T : ActionType),
      alookup (rate_limits P) (actionKey T) = none →
      check_rate_limit s now P T = true) ∧
    (∀ T : ActionType, alookup (rate_limits .linkedin) (actionKey T) = none) ∧
    (∀ T : ActionType, alookup (rate_limits .youtube) (actionKey T) = none) ∧
    alookup (rate_limits .twitter) (actionKey .story_view) = none ∧
    alookup (rate_limits .tiktok) (actionKey .story_view) = none := by
  refine ⟨?_, ?_, ?_, by decide, by decide⟩
  · intro s now P T hnone
    rw [check_rate_limit, hnone]
  · intro T
    cases T <;> decide
  · intro T
    cases T <;> decide

/-- Fifty successful LinkedIn follow actions recorded at time 5 — far more
than any configured follow budget. -/
def linkedinActions : List FollowAction :=
  (List.range 50).map (fun i =>
    { id := toString i, campaign_id := "c9", action_type := .follow,
      target_username := "x", platform := .linkedin, timestamp := 5,
      success := true, error_message := "" })

/-- State with fifty recent LinkedIn follow actions. -/
def stLinkedin : AutomationState := { campaigns := [], actions := linkedinActions }

/-- Witness for C10: with fifty recent LinkedIn follows recorded, a
LinkedIn follow and a Twitter story view are still allowed. -/
theorem unconfigured_budget_allows_witness :
    check_rate_limit stLinkedin 10 .linkedin .follow = true ∧
    check_rate_limit stLinkedin 10 .twitter .story_view = true := by
  exact ⟨unconfigured_budget_allows.1 stLinkedin 10 .linkedin .follow (by decide),
         unconfigured_budget_allows.1 stLinkedin 10 .twitter .story_view (by decide)⟩

end SMM
